import Mathlib

/-!
# EyVendor: the vendor-creation service of `main.go`

A shallow embedding of the one Go source file. The program's own code
(`Vendor` and its parts, `connectDB`, `createVendor`, `main`) is translated
statement by statement. What the program calls but does not contain is the
outside world and is made explicit:

* the process environment is a list of `KEY=value` entries, threaded through
  `Process`;
* the document store is a list of documents together with the log of the
  insert operations it has received (`mongo.Store`);
* every choice the outside world makes (what `.env` holds, whether the
  connection, the ping and the listen succeed, what the JSON binder returns for
  a body, whether an insert succeeds and with which identifier, whether an
  insert that is reported as failed was stored all the same) is a field of
  `StartupWorld` or `RequestWorld`, and the theorems quantify over all of them;
* `log.Fatal` ends the process: a function that can end it returns
  `Except Process Process`, with `Except.error q` the process as it was at exit.

The two context timeouts (10 s at startup, 5 s per insert) are not clocks here:
an expired timeout is one of the ways a connection, ping or insert fails.
-/

namespace EyVendor

/-! ## Schema (main.go, lines 18-43) -/

/-- Go `float64`, carried as its IEEE-754 binary64 bit pattern. The program
never computes on such a value, it only moves it from the request to the store. -/
structure Float64 where
  bits : Nat
deriving DecidableEq, Repr

/-- Go `error`: a value with an `Error()` text. -/
structure error where
  Error : String
deriving DecidableEq, Repr

/-- The identifier the store assigns to a new document (`result.InsertedID`). -/
structure ObjectID where
  value : Nat
deriving DecidableEq, Repr

structure CompanyRating where
  CompanyID : String
  AvgRating : Float64
deriving DecidableEq, Repr

structure GlobalRatings where
  AvgRating : Float64
deriving DecidableEq, Repr

structure GlobalMetrics where
  SuccessRate : Float64
  AvgResponseTime : Int
deriving DecidableEq, Repr

/-- Vendor represents the document structure for the global_vectors collection. -/
structure Vendor where
  VendorID : String
  Name : String
  Category : String
  CompanyWiseRatings : List CompanyRating
  GlobalRatings : GlobalRatings
  GlobalMetrics : GlobalMetrics
  TrustScore : Float64
deriving DecidableEq, Repr

/-! ## The process environment: `os` and `godotenv` -/

/-- The process environment: the `KEY=value` entries of `os.Environ()`. -/
abbrev Environ := List (String × String)

namespace os

/-- `os.Getenv`: the value of the variable, and `""` when it is not present. -/
def Getenv (env : Environ) (key : String) : String :=
  match env.lookup key with
  | some value => value
  | none => ""

/-- `os.Setenv`: the variable now has this value and no other entry. -/
def Setenv (env : Environ) (key value : String) : Environ :=
  (key, value) :: env.filter (fun kv => kv.1 != key)

end os

namespace godotenv

/-- `godotenv.Load()`: `file` is what reading and parsing `.env` gave, an error
(no such file, not parsable) or its key/value pairs. A variable of the file is
set only when the process environment has no entry for it (`Load` does not
override), and the error, if any, is returned. -/
def Load (file : Except error (List (String × String))) (env : Environ) :
    Environ × Option error :=
  match file with
  | .error err => (env, some err)
  | .ok envMap =>
    (envMap.foldl
      (fun acc kv => if env.any (fun cur => cur.1 == kv.1) then acc else os.Setenv acc kv.1 kv.2)
      env, none)

end godotenv

/-! ## The document store: `options` and `mongo` -/

namespace options

/-- `options.ClientOptions`, of which the program sets the URI only. -/
structure ClientOptions where
  uri : Option String
deriving DecidableEq, Repr

/-- `options.Client()`. -/
def Client : ClientOptions := ⟨none⟩

/-- `(*ClientOptions).ApplyURI`. -/
def ClientOptions.ApplyURI (o : ClientOptions) (uri : String) : ClientOptions :=
  { o with uri := some uri }

end options

namespace mongo

/-- `*mongo.Client`: a connected client, known by the options it was made from. -/
structure Client where
  opts : options.ClientOptions
deriving DecidableEq, Repr

/-- `*mongo.Database`. -/
structure Database where
  client : Client
  name : String
deriving DecidableEq, Repr

/-- `*mongo.Collection`: the handle the global variable `collection` holds. -/
structure Collection where
  database : Database
  name : String
deriving DecidableEq, Repr

/-- `(*Client).Database`: no check on the name. -/
def Client.Database (client : Client) (name : String) : Database :=
  ⟨client, name⟩

/-- `(*Database).Collection`: no check on the name. -/
def Database.Collection (db : Database) (name : String) : Collection :=
  ⟨db, name⟩

/-- `mongo.Connect(ctx, opts)`: `fails` is the outside world's part, the error of
this attempt if there is one (bad URI, timeout of the 10 s context, ...). -/
def Connect (fails : options.ClientOptions → Option error) (opts : options.ClientOptions) :
    Except error Client :=
  match fails opts with
  | some err => .error err
  | none => .ok ⟨opts⟩

/-- `mongo.InsertOneResult`. -/
structure InsertOneResult where
  InsertedID : ObjectID
deriving DecidableEq, Repr

/-- A stored document: the identifier the store gave it and the value inserted. -/
structure Document where
  id : ObjectID
  value : Vendor
deriving DecidableEq, Repr

/-- The collection behind the handle, as an explicit list of documents (oldest
first), with the log of the `InsertOne` operations issued against it. -/
structure Store where
  documents : List Document
  inserts : List Vendor
deriving DecidableEq, Repr

/-- `(*Collection).InsertOne(ctx, document)` against the list model. The
outside world has two parts in it. `outcome` is what the call returns: success
with an identifier, or an error (timeout of the 5 s context, connectivity loss,
driver-level error). `storedOnError` is what became of a write that is reported
as failed: `none` when it never took effect, `some id` when the server stored
the document under `id` although the caller got an error (the deadline expired
or the connection was lost before the acknowledgement arrived). A successful
insert appends exactly the document, and every operation is logged. -/
def Collection.InsertOne (outcome : Collection → Store → Vendor → Except error ObjectID)
    (storedOnError : Collection → Store → Vendor → Option ObjectID)
    (coll : Collection) (s : Store) (document : Vendor) :
    Except error InsertOneResult × Store :=
  match outcome coll s document with
  | .error err =>
    (.error err,
      { documents :=
          match storedOnError coll s document with
          | some id => s.documents ++ [⟨id, document⟩]
          | none => s.documents,
        inserts := s.inserts ++ [document] })
  | .ok id =>
    (.ok ⟨id⟩,
      { documents := s.documents ++ [⟨id, document⟩], inserts := s.inserts ++ [document] })

end mongo

/-! ## HTTP: `http` and `gin` -/

namespace http

def StatusCreated : Nat := 201

def StatusBadRequest : Nat := 400

def StatusInternalServerError : Nat := 500

end http

/-- What the outside world decides while a request is handled. -/
structure RequestWorld where
  /-- The JSON binder of gin on a request body: the decoded `Vendor` or the decode error. -/
  bindJSON : String → Except error Vendor
  /-- The outcome of an insert, given the handle, the store and the document. -/
  insertOutcome : mongo.Collection → mongo.Store → Vendor → Except error ObjectID
  /-- For an insert that returns an error: the identifier under which the
  document was stored all the same, if it was. -/
  storedOnError : mongo.Collection → mongo.Store → Vendor → Option ObjectID

namespace gin

/-- The `interface{}` values the handler puts in a `gin.H`. -/
inductive Value where
  | string (s : String)
  | objectID (id : ObjectID)
deriving DecidableEq, Repr

/-- `gin.H`, a JSON object: its fields with their values. -/
abbrev H := List (String × Value)

/-- One response written to the client: status code and JSON body. -/
structure Response where
  status : Nat
  body : H
deriving DecidableEq, Repr

/-- `*gin.Context`: the request body and the responses written so far. -/
structure Context where
  body : String
  written : List Response
deriving DecidableEq, Repr

/-- `c.ShouldBindJSON(&vendor)`. -/
def Context.ShouldBindJSON (c : Context) (w : RequestWorld) : Except error Vendor :=
  w.bindJSON c.body

/-- `c.JSON(code, obj)`: one more response is written. -/
def Context.JSON (c : Context) (code : Nat) (obj : H) : Context :=
  { c with written := c.written ++ [⟨code, obj⟩] }

end gin

/-! ## Route handler (main.go, lines 82-107) -/

/-- `createVendor`. `collection` is the value of the global variable at the time
of the request; `none` is the nil pointer, on which `InsertOne` panics (the
result `none`). The insert goes to the collection that handle names, which is
the one `connectDB` made from DB_NAME and COLLECTION_NAME; the names in the
comment of step 2 are not in the code. The result is the context after the
handler and the store after it. -/
def createVendor (w : RequestWorld) (collection : Option mongo.Collection) (c : gin.Context)
    (s : mongo.Store) : Option (gin.Context × mongo.Store) :=
  -- 1. Bind JSON to struct
  match c.ShouldBindJSON w with
  | .error err => some (c.JSON http.StatusBadRequest [("error", .string err.Error)], s)
  | .ok vendor =>
    match collection with
    | none => none
    | some coll =>
      -- 2. Insert into techathon_db -> global_vectors
      match coll.InsertOne w.insertOutcome w.storedOnError s vendor with
      | (.error _, s) =>
        some (c.JSON http.StatusInternalServerError
          [("error", .string "Failed to create vendor")], s)
      | (.ok result, s) =>
        some (c.JSON http.StatusCreated
          [("message", .string "Vendor created successfully"),
           ("insertedId", .objectID result.InsertedID),
           ("vendor_id", .string vendor.VendorID)], s)

/-! ## Process state, `log`, `fmt` and the router -/

/-- What the outside world decides during startup. -/
structure StartupWorld where
  /-- What reading and parsing the file `.env` gives. -/
  dotenv : Except error (List (String × String))
  /-- The error of a connection attempt with these options, if it fails. -/
  connectFails : options.ClientOptions → Option error
  /-- The error of the liveness check on this client, if it fails. -/
  pingFails : mongo.Client → Option error
  /-- The error of listening on this address, if it fails (not a port, port in use). -/
  listenFails : String → Option error

/-- `gin.HandlerFunc`, with what a handler reads and changes made explicit. -/
abbrev HandlerFunc :=
  RequestWorld → Option mongo.Collection → gin.Context → mongo.Store →
    Option (gin.Context × mongo.Store)

namespace gin

/-- One entry of the routing table. -/
structure Route where
  method : String
  path : String
  handler : HandlerFunc

/-- `*gin.Engine`: the middleware in use and the routing table. -/
structure Engine where
  middleware : List String
  routes : List Route

/-- `gin.Default()`: Logger and Recovery middleware, no route. -/
def Default : Engine := ⟨["Logger", "Recovery"], []⟩

/-- `r.POST(relativePath, handler)`. -/
def Engine.POST (r : Engine) (relativePath : String) (handler : HandlerFunc) : Engine :=
  { r with routes := r.routes ++ [⟨"POST", relativePath, handler⟩] }

end gin

/-- A router and an address: what `r.Run(addr)` is called with. -/
structure Server where
  engine : gin.Engine
  addr : String

/-- The state of the process. -/
structure Process where
  /-- The process environment. -/
  environ : Environ
  /-- The global `var collection *mongo.Collection`, `none` for nil. -/
  collection : Option mongo.Collection
  /-- The lines written through `log` and `fmt`, oldest first. -/
  output : List String
  /-- The connection attempts made (`mongo.Connect`), oldest first. -/
  connects : List options.ClientOptions
  /-- The liveness checks made (`client.Ping`), oldest first. -/
  pings : List mongo.Client
  /-- The calls of `r.Run` made, oldest first: the attempts to listen. -/
  listens : List Server
  /-- The router and address the process listens with, once a listen has succeeded. -/
  serving : Option Server
  /-- The exit status, once the process has ended. -/
  exitCode : Option Nat

/-- The process when the Go runtime calls `main`: the global is nil, nothing
has been written, attempted or served. -/
def Process.start (environ : Environ) : Process :=
  { environ := environ, collection := none, output := [], connects := [], pings := [],
    listens := [], serving := none, exitCode := none }

namespace log

/-- `log.Println(msg)`. -/
def Println (p : Process) (msg : String) : Process :=
  { p with output := p.output ++ [msg] }

/-- `log.Fatal(msg)`: the message is written and the process exits with status
1; nothing after the call runs. -/
def Fatal (p : Process) (msg : String) : Except Process Process :=
  .error { p with output := p.output ++ [msg], exitCode := some 1 }

end log

namespace fmt

/-- `fmt.Println(msg)`. -/
def Println (p : Process) (msg : String) : Process :=
  { p with output := p.output ++ [msg] }

end fmt

/-- `r.Run(addr)`: `fails` is the outside world's part, the error of listening
on `addr` if there is one. On an error `Run` returns it and the process does not
listen. Otherwise the process listens on `addr` with the router `r`, and `Run`
does not return while it serves: the result is then the serving process. -/
def gin.Engine.Run (r : gin.Engine) (fails : String → Option error) (p : Process)
    (addr : String) : Process × Option error :=
  match fails addr with
  | some err => ({ p with listens := p.listens ++ [⟨r, addr⟩] }, some err)
  | none =>
    ({ p with listens := p.listens ++ [⟨r, addr⟩], serving := some ⟨r, addr⟩ }, none)

/-! ## Database setup (main.go, lines 48-80) and `main` (lines 109-125) -/

/-- `connectDB`. -/
def connectDB (w : StartupWorld) (p : Process) : Except Process Process :=
  -- Load .env file
  let loaded := godotenv.Load w.dotenv p.environ
  let p := { p with environ := loaded.1 }
  let p := match loaded.2 with
    | some _ => log.Println p "No .env file found"
    | none => p
  let uri := os.Getenv p.environ "MONGO_URI"
  if uri = "" then
    log.Fatal p "You must set your 'MONGO_URI' environmental variable."
  else
    let clientOptions := options.Client.ApplyURI uri
    let p := { p with connects := p.connects ++ [clientOptions] }
    match mongo.Connect w.connectFails clientOptions with
    | .error err => log.Fatal p err.Error
    | .ok client =>
      -- Ping the database
      let p := { p with pings := p.pings ++ [client] }
      match w.pingFails client with
      | some err => log.Fatal p ("Could not connect to MongoDB:" ++ err.Error)
      | none =>
        let p := fmt.Println p "Connected to MongoDB!"
        let dbName := os.Getenv p.environ "DB_NAME"
        let colName := os.Getenv p.environ "COLLECTION_NAME"
        .ok { p with collection := some ((client.Database dbName).Collection colName) }

/-- The function `main`. `Except.error q` is the process ended by `log.Fatal`.
`Except.ok q` is the process either serving (`r.Run` has not returned,
`q.exitCode = none`) or ended: when `r.Run` returns, its error is not looked at,
`main` returns and the process exits with status 0. -/
def main (w : StartupWorld) (p : Process) : Except Process Process :=
  -- Initialize Database
  match connectDB w p with
  | .error q => .error q
  | .ok p =>
    -- Initialize Router
    let r := gin.Default
    -- Define Routes
    let r := r.POST "/api/vendor" createVendor
    -- Run Server
    let port := os.Getenv p.environ "PORT"
    let port := if port = "" then "8080" else port
    let ran := r.Run w.listenFails p (":" ++ port)
    match ran.2 with
    | some _ => .ok { ran.1 with exitCode := some 0 }
    | none => .ok ran.1

/-! ## Concrete worlds, used to exercise the theorems -/

/-- The request body of the concrete scenario of the specification. -/
def sampleBody : String :=
  "\x7b\"vendor_id\":\"v1\",\"name\":\"Acme\",\"category\":\"logistics\",\"trust_score\":0.87\x7d"

/-- The `Vendor` that body decodes to: the omitted fields keep their zero
values, and 4606011482896901079 is the bit pattern of 0.87. -/
def sampleVendor : Vendor :=
  { VendorID := "v1", Name := "Acme", Category := "logistics", CompanyWiseRatings := [],
    GlobalRatings := ⟨⟨0⟩⟩, GlobalMetrics := ⟨⟨0⟩, 0⟩, TrustScore := ⟨4606011482896901079⟩ }

/-- A `Vendor` no validation would accept: empty `vendor_id`, the same company
rated twice, ratings of 11 and -3.5 (bit patterns 4622382067542392832 and
13838435755002691584), a negative response time. -/
def oddVendor : Vendor :=
  { VendorID := "", Name := "", Category := "",
    CompanyWiseRatings := [⟨"c1", ⟨4622382067542392832⟩⟩, ⟨"c1", ⟨13838435755002691584⟩⟩],
    GlobalRatings := ⟨⟨4622382067542392832⟩⟩, GlobalMetrics := ⟨⟨13838435755002691584⟩, -5⟩,
    TrustScore := ⟨13838435755002691584⟩ }

/-- A body with `trust_score` given as a string. -/
def mistypedBody : String :=
  "\x7b\"vendor_id\":\"v1\",\"trust_score\":\"high\"\x7d"

/-- A binder that knows the three bodies above and rejects the rest. -/
def sampleBind (body : String) : Except error Vendor :=
  if body = sampleBody then .ok sampleVendor
  else if body = "odd" then .ok oddVendor
  else if body = mistypedBody then
    .error ⟨"json: cannot unmarshal string into Go struct field Vendor.trust_score of type float64"⟩
  else .error ⟨"invalid request"⟩

/-- An identifier no document of the store has: one more than the sum of theirs. -/
def nextID (s : mongo.Store) : ObjectID :=
  ⟨(s.documents.map (fun d => d.id.value)).sum + 1⟩

/-- A store that is up: every insert succeeds, with a fresh identifier. -/
def upWorld : RequestWorld :=
  { bindJSON := sampleBind, insertOutcome := fun _ s _ => .ok (nextID s),
    storedOnError := fun _ _ _ => none }

/-- A store that is down: every insert fails with this error and stores nothing. -/
def downWorld (err : error) : RequestWorld :=
  { bindJSON := sampleBind, insertOutcome := fun _ _ _ => .error err,
    storedOnError := fun _ _ _ => none }

/-- A store that is slow: it stores every document, under a fresh identifier,
but the acknowledgement comes after the 5 s deadline, so every insert returns
the deadline error. -/
def slowWorld : RequestWorld :=
  { bindJSON := sampleBind,
    insertOutcome := fun _ _ _ => .error ⟨"context deadline exceeded"⟩,
    storedOnError := fun _ s _ => some (nextID s) }

/-- The handle `connectDB` makes from these three settings. -/
def sampleCollection : mongo.Collection :=
  ((mongo.Client.mk (options.Client.ApplyURI "mongodb://localhost:27017")).Database
    "techathon_db").Collection "global_vectors"

/-- A store with one document already in it. -/
def sampleStore : mongo.Store :=
  { documents := [⟨⟨7⟩, oddVendor⟩], inserts := [oddVendor] }

/-- A `.env` file that supplies the four settings. -/
def sampleDotenv : List (String × String) :=
  [("MONGO_URI", "mongodb://localhost:27017"), ("DB_NAME", "techathon_db"),
   ("COLLECTION_NAME", "global_vectors"), ("PORT", "9999")]

/-- Startup with that `.env` file and a reachable store. -/
def goodStartup : StartupWorld :=
  { dotenv := .ok sampleDotenv, connectFails := fun _ => none, pingFails := fun _ => none,
    listenFails := fun _ => none }

/-- The same startup on a host where "abc" names no port and port 8080 is taken. -/
def busyStartup : StartupWorld :=
  { dotenv := .ok sampleDotenv, connectFails := fun _ => none, pingFails := fun _ => none,
    listenFails := fun addr =>
      if addr = ":abc" then some ⟨"listen tcp: lookup tcp/abc: unknown port"⟩
      else if addr = ":8080" then some ⟨"listen tcp :8080: bind: address already in use"⟩
      else none }

/-- Startup with no `.env` file and a reachable store. -/
def bareStartup : StartupWorld :=
  { dotenv := .error ⟨"open .env: no such file or directory"⟩,
    connectFails := fun _ => none, pingFails := fun _ => none, listenFails := fun _ => none }

/-- A store assigns fresh identifiers: the identifier of a successful insert is
that of no document the collection already holds. -/
def mongo.FreshIDs (outcome : mongo.Collection → mongo.Store → Vendor → Except error ObjectID) :
    Prop :=
  ∀ coll s v id, outcome coll s v = .ok id → ∀ d ∈ s.documents, d.id ≠ id

/-! ## The handler: responses -/

/-- The three paths of createVendor, as equations: decoding fails. -/
theorem createVendor_eq_of_decode_error (w : RequestWorld)
    (collection : Option mongo.Collection) (c : gin.Context) (s : mongo.Store) (e : error)
    (hdecode : w.bindJSON c.body = .error e) :
    createVendor w collection c s
      = some (c.JSON 400 [("error", .string e.Error)], s) := by
  simp [createVendor, gin.Context.ShouldBindJSON, hdecode, http.StatusBadRequest]

/-- Decoding succeeds and the insert fails. -/
theorem createVendor_eq_of_insert_error (w : RequestWorld) (coll : mongo.Collection)
    (c : gin.Context) (s : mongo.Store) (v : Vendor) (e : error)
    (hdecode : w.bindJSON c.body = .ok v) (hinsert : w.insertOutcome coll s v = .error e) :
    createVendor w (some coll) c s
      = some (c.JSON 500 [("error", .string "Failed to create vendor")],
          { documents :=
              match w.storedOnError coll s v with
              | some id => s.documents ++ [⟨id, v⟩]
              | none => s.documents,
            inserts := s.inserts ++ [v] }) := by
  simp [createVendor, gin.Context.ShouldBindJSON, mongo.Collection.InsertOne, hdecode, hinsert,
    http.StatusInternalServerError]

/-- Decoding and the insert both succeed. -/
theorem createVendor_eq_of_insert_ok (w : RequestWorld) (coll : mongo.Collection)
    (c : gin.Context) (s : mongo.Store) (v : Vendor) (id : ObjectID)
    (hdecode : w.bindJSON c.body = .ok v) (hinsert : w.insertOutcome coll s v = .ok id) :
    createVendor w (some coll) c s
      = some (c.JSON 201 [("message", .string "Vendor created successfully"),
            ("insertedId", .objectID id), ("vendor_id", .string v.VendorID)],
          { documents := s.documents ++ [⟨id, v⟩], inserts := s.inserts ++ [v] }) := by
  simp [createVendor, gin.Context.ShouldBindJSON, mongo.Collection.InsertOne, hdecode, hinsert,
    http.StatusCreated]

/-- C1: when the body decodes to a Vendor `v` and the insert succeeds with
identifier `id`, createVendor writes one response, with status 201 and a body
of exactly the three fields message = "Vendor created successfully",
insertedId = `id` and vendor_id = `v.VendorID`. -/
theorem createVendor_created (w : RequestWorld) (coll : mongo.Collection) (c : gin.Context)
    (s : mongo.Store) (v : Vendor) (id : ObjectID)
    (hdecode : w.bindJSON c.body = .ok v) (hinsert : w.insertOutcome coll s v = .ok id) :
    ∃ c' s', createVendor w (some coll) c s = some (c', s') ∧
      c'.written = c.written ++
        [⟨201, [("message", .string "Vendor created successfully"),
                ("insertedId", .objectID id), ("vendor_id", .string v.VendorID)]⟩] := by
  simp [createVendor, gin.Context.ShouldBindJSON, mongo.Collection.InsertOne, hdecode, hinsert,
    gin.Context.JSON, http.StatusCreated]

/-- The concrete scenario of the specification, on a store holding one document. -/
theorem createVendor_created_witness :
    ∃ c' s', createVendor upWorld (some sampleCollection) ⟨sampleBody, []⟩ sampleStore
        = some (c', s') ∧
      c'.written = [] ++
        [⟨201, [("message", .string "Vendor created successfully"),
                ("insertedId", .objectID ⟨8⟩), ("vendor_id", .string sampleVendor.VendorID)]⟩] :=
  createVendor_created upWorld sampleCollection ⟨sampleBody, []⟩ sampleStore sampleVendor ⟨8⟩
    (by rfl) (by rfl)

/-- C2: when the body fails to decode with error `e`, createVendor writes one
response, with status 400 and body {"error": text of `e`}, and the store is
left as it was: no document is added and no insert is issued. This holds
whatever the global handle is, nil included. -/
theorem createVendor_bad_request (w : RequestWorld) (collection : Option mongo.Collection)
    (c : gin.Context) (s : mongo.Store) (e : error)
    (hdecode : w.bindJSON c.body = .error e) :
    ∃ c', createVendor w collection c s = some (c', s) ∧
      c'.written = c.written ++ [⟨400, [("error", .string e.Error)]⟩] := by
  simp [createVendor, gin.Context.ShouldBindJSON, hdecode, gin.Context.JSON,
    http.StatusBadRequest]

/-- A body with `trust_score` given as a string: 400, and the store as it was. -/
theorem createVendor_bad_request_witness :
    ∃ c', createVendor upWorld (some sampleCollection) ⟨mistypedBody, []⟩ sampleStore
        = some (c', sampleStore) ∧
      c'.written = [] ++ [⟨400, [("error", .string (error.mk
        "json: cannot unmarshal string into Go struct field Vendor.trust_score of type float64").Error)]⟩] :=
  createVendor_bad_request upWorld (some sampleCollection) ⟨mistypedBody, []⟩ sampleStore _
    (by rfl)

/-- C3: when the body decodes and the insert fails, createVendor writes one
response, with status 500 and body {"error": "Failed to create vendor"}. Two
such calls, in any two worlds, on any two handles, stores and vendors and
with any two insert errors, write the same response: the cause is not shown. -/
theorem createVendor_failure_generic (w₁ w₂ : RequestWorld) (coll₁ coll₂ : mongo.Collection)
    (c₁ c₂ : gin.Context) (s₁ s₂ : mongo.Store) (v₁ v₂ : Vendor) (e₁ e₂ : error)
    (hdecode₁ : w₁.bindJSON c₁.body = .ok v₁) (hdecode₂ : w₂.bindJSON c₂.body = .ok v₂)
    (hinsert₁ : w₁.insertOutcome coll₁ s₁ v₁ = .error e₁)
    (hinsert₂ : w₂.insertOutcome coll₂ s₂ v₂ = .error e₂) :
    ∃ k₁ t₁ k₂ t₂,
      createVendor w₁ (some coll₁) c₁ s₁ = some (k₁, t₁) ∧
      createVendor w₂ (some coll₂) c₂ s₂ = some (k₂, t₂) ∧
      k₁.written = c₁.written ++ [⟨500, [("error", .string "Failed to create vendor")]⟩] ∧
      k₂.written = c₂.written ++ [⟨500, [("error", .string "Failed to create vendor")]⟩] := by
  simp [createVendor, gin.Context.ShouldBindJSON, mongo.Collection.InsertOne, hdecode₁,
    hdecode₂, hinsert₁, hinsert₂, gin.Context.JSON, http.StatusInternalServerError]

/-- Two vendors, two stores, two causes of failure: one and the same response. -/
theorem createVendor_failure_generic_witness :
    ∃ k₁ t₁ k₂ t₂,
      createVendor (downWorld ⟨"context deadline exceeded"⟩) (some sampleCollection)
        ⟨sampleBody, []⟩ sampleStore = some (k₁, t₁) ∧
      createVendor (downWorld ⟨"server selection error"⟩) (some sampleCollection)
        ⟨"odd", []⟩ ⟨[], []⟩ = some (k₂, t₂) ∧
      k₁.written = [] ++ [⟨500, [("error", .string "Failed to create vendor")]⟩] ∧
      k₂.written = [] ++ [⟨500, [("error", .string "Failed to create vendor")]⟩] :=
  createVendor_failure_generic (downWorld ⟨"context deadline exceeded"⟩)
    (downWorld ⟨"server selection error"⟩) sampleCollection sampleCollection
    ⟨sampleBody, []⟩ ⟨"odd", []⟩ sampleStore ⟨[], []⟩ sampleVendor oddVendor _ _
    (by rfl) (by rfl) (by rfl) (by rfl)

/-- C4: for every request (the handle being set), createVendor returns having
written exactly one response, whose status is 201, 400 or 500: 400 exactly when
decoding fails, 500 exactly when decoding succeeds and the insert fails, 201
exactly when both succeed. -/
theorem createVendor_status (w : RequestWorld) (coll : mongo.Collection) (c : gin.Context)
    (s : mongo.Store) :
    ∃ c' s' r, createVendor w (some coll) c s = some (c', s') ∧
      c'.written = c.written ++ [r] ∧
      (r.status = 201 ∨ r.status = 400 ∨ r.status = 500) ∧
      (r.status = 400 ↔ ∃ e, w.bindJSON c.body = .error e) ∧
      (r.status = 500 ↔
        ∃ v e, w.bindJSON c.body = .ok v ∧ w.insertOutcome coll s v = .error e) ∧
      (r.status = 201 ↔
        ∃ v id, w.bindJSON c.body = .ok v ∧ w.insertOutcome coll s v = .ok id) := by
  cases hdecode : w.bindJSON c.body with
  | error e =>
    simp [createVendor, gin.Context.ShouldBindJSON, hdecode, gin.Context.JSON,
      http.StatusBadRequest]
  | ok v =>
    cases hinsert : w.insertOutcome coll s v with
    | error e =>
      simp [createVendor, gin.Context.ShouldBindJSON, mongo.Collection.InsertOne, hdecode,
        hinsert, gin.Context.JSON, http.StatusInternalServerError]
    | ok id =>
      simp [createVendor, gin.Context.ShouldBindJSON, mongo.Collection.InsertOne, hdecode,
        hinsert, gin.Context.JSON, http.StatusCreated]

/-! ## The handler: effect on the store -/

/-- C5, as amended: with the collection as a list of documents, a call of
createVendor that ends in 201 leaves the collection equal to its previous
contents followed by exactly one new document; a call that ends in 400 leaves
the contents unchanged; a call that ends in 500 leaves them unchanged when the
failed insert was not stored, and otherwise leaves them followed by the one
document of that insert; and in every case at most one insert is issued. -/
theorem createVendor_frame (w : RequestWorld) (coll : mongo.Collection) (c : gin.Context)
    (s : mongo.Store) :
    ∃ c' s' r, createVendor w (some coll) c s = some (c', s') ∧
      c'.written = c.written ++ [r] ∧
      (r.status = 201 → ∃ d, s'.documents = s.documents ++ [d]) ∧
      (r.status = 400 → s'.documents = s.documents) ∧
      (r.status = 500 → ∃ v, w.bindJSON c.body = .ok v ∧
        (w.storedOnError coll s v = none → s'.documents = s.documents) ∧
        (∀ id, w.storedOnError coll s v = some id →
          s'.documents = s.documents ++ [⟨id, v⟩])) ∧
      (s'.inserts = s.inserts ∨ ∃ doc, s'.inserts = s.inserts ++ [doc]) := by
  cases hdecode : w.bindJSON c.body with
  | error e =>
    refine ⟨_, _, _, createVendor_eq_of_decode_error w _ c s e hdecode, rfl, ?_⟩
    simp
  | ok v =>
    cases hinsert : w.insertOutcome coll s v with
    | error e =>
      refine ⟨_, _, _, createVendor_eq_of_insert_error w coll c s v e hdecode hinsert, rfl, ?_⟩
      cases hstored : w.storedOnError coll s v <;> simp [hstored]
    | ok id =>
      refine ⟨_, _, _, createVendor_eq_of_insert_ok w coll c s v id hdecode hinsert, rfl, ?_⟩
      simp

/-- C5 as stated fails: on the slow store the sample request ends in 500, and
the collection has one document more than before. -/
theorem createVendor_frame_fails_when_stored_late :
    ∃ c' s', createVendor slowWorld (some sampleCollection) ⟨sampleBody, []⟩ sampleStore
        = some (c', s') ∧
      c'.written = [⟨500, [("error", .string "Failed to create vendor")]⟩] ∧
      s'.documents = sampleStore.documents ++ [⟨⟨8⟩, sampleVendor⟩] ∧
      s'.documents ≠ sampleStore.documents :=
  ⟨_, _, rfl, rfl, rfl, by decide⟩

/-- C7: every Vendor `v` that decoding yields, whatever its contents, is not
rejected (the response is not a 400) and is handed to the insert as it is: the
one insert issued carries exactly `v`, and when the insert succeeds the stored
document is `v`, all seven fields as decoded, and the response is 201. -/
theorem createVendor_no_validation (w : RequestWorld) (coll : mongo.Collection)
    (c : gin.Context) (s : mongo.Store) (v : Vendor)
    (hdecode : w.bindJSON c.body = .ok v) :
    ∃ c' s' r, createVendor w (some coll) c s = some (c', s') ∧
      c'.written = c.written ++ [r] ∧ r.status ≠ 400 ∧
      s'.inserts = s.inserts ++ [v] ∧
      (∀ id, w.insertOutcome coll s v = .ok id →
        r.status = 201 ∧ s'.documents = s.documents ++ [⟨id, v⟩]) := by
  cases hinsert : w.insertOutcome coll s v with
  | error e =>
    refine ⟨_, _, _, createVendor_eq_of_insert_error w coll c s v e hdecode hinsert, rfl, ?_⟩
    simp
  | ok id =>
    refine ⟨_, _, _, createVendor_eq_of_insert_ok w coll c s v id hdecode hinsert, rfl, ?_⟩
    simp

/-- The vendor with out-of-range and duplicate contents is inserted as it is. -/
theorem createVendor_no_validation_witness :
    ∃ c' s' r, createVendor upWorld (some sampleCollection) ⟨"odd", []⟩ ⟨[], []⟩
        = some (c', s') ∧
      c'.written = [] ++ [r] ∧ r.status ≠ 400 ∧
      s'.inserts = [] ++ [oddVendor] ∧
      (∀ id, upWorld.insertOutcome sampleCollection ⟨[], []⟩ oddVendor = .ok id →
        r.status = 201 ∧ s'.documents = [] ++ [⟨id, oddVendor⟩]) :=
  createVendor_no_validation upWorld sampleCollection ⟨"odd", []⟩ ⟨[], []⟩ oddVendor (by rfl)

/-- The identifier `nextID` picks is above every identifier in the store. -/
theorem le_sum_of_mem_documents (docs : List mongo.Document) (d : mongo.Document)
    (hd : d ∈ docs) : d.id.value ≤ (docs.map (fun d => d.id.value)).sum := by
  induction docs with
  | nil => cases hd
  | cons x xs ih =>
    rcases List.mem_cons.mp hd with h | h
    · subst h
      simp
    · have := ih h
      simp only [List.map_cons, List.sum_cons]
      omega

/-- The store of `upWorld` assigns fresh identifiers. -/
theorem upWorld_freshIDs : mongo.FreshIDs upWorld.insertOutcome := by
  intro coll s v id h d hd hid
  have hle := le_sum_of_mem_documents s.documents d hd
  simp only [upWorld, nextID, Except.ok.injEq] at h
  rw [hid, ← h] at hle
  simp at hle

/-- C6: createVendor does not deduplicate. Two successive calls with the same
body, which decodes to `v`, against a store that assigns fresh identifiers and
on which both inserts succeed: both calls end in 201, the collection gains two
documents, both equal to `v`, the two insertedId values differ, and both
responses echo the same vendor_id. -/
theorem createVendor_not_idempotent (w : RequestWorld) (coll : mongo.Collection)
    (c₁ c₂ : gin.Context) (s : mongo.Store) (v : Vendor) (id₁ id₂ : ObjectID)
    (hbody : c₂.body = c₁.body) (hdecode : w.bindJSON c₁.body = .ok v)
    (hfresh : mongo.FreshIDs w.insertOutcome)
    (hinsert₁ : w.insertOutcome coll s v = .ok id₁)
    (hinsert₂ : w.insertOutcome coll
      { documents := s.documents ++ [⟨id₁, v⟩], inserts := s.inserts ++ [v] } v = .ok id₂) :
    ∃ k₁ s₁ k₂ s₂,
      createVendor w (some coll) c₁ s = some (k₁, s₁) ∧
      createVendor w (some coll) c₂ s₁ = some (k₂, s₂) ∧
      k₁.written = c₁.written ++
        [⟨201, [("message", .string "Vendor created successfully"),
                ("insertedId", .objectID id₁), ("vendor_id", .string v.VendorID)]⟩] ∧
      k₂.written = c₂.written ++
        [⟨201, [("message", .string "Vendor created successfully"),
                ("insertedId", .objectID id₂), ("vendor_id", .string v.VendorID)]⟩] ∧
      id₁ ≠ id₂ ∧
      s₂.documents = s.documents ++ [⟨id₁, v⟩, ⟨id₂, v⟩] ∧
      s₂.inserts = s.inserts ++ [v, v] := by
  refine ⟨_, _, _, _, createVendor_eq_of_insert_ok w coll c₁ s v id₁ hdecode hinsert₁,
    createVendor_eq_of_insert_ok w coll c₂ _ v id₂ (hbody ▸ hdecode) hinsert₂, rfl, rfl, ?_, ?_, ?_⟩
  · exact hfresh coll _ v id₂ hinsert₂ ⟨id₁, v⟩ (by simp)
  · simp
  · simp

/-- The sample body posted twice: identifiers 8 and 16, two documents added. -/
theorem createVendor_not_idempotent_witness :
    ∃ k₁ s₁ k₂ s₂,
      createVendor upWorld (some sampleCollection) ⟨sampleBody, []⟩ sampleStore
        = some (k₁, s₁) ∧
      createVendor upWorld (some sampleCollection) ⟨sampleBody, []⟩ s₁ = some (k₂, s₂) ∧
      k₁.written = [] ++
        [⟨201, [("message", .string "Vendor created successfully"),
                ("insertedId", .objectID ⟨8⟩), ("vendor_id", .string sampleVendor.VendorID)]⟩] ∧
      k₂.written = [] ++
        [⟨201, [("message", .string "Vendor created successfully"),
                ("insertedId", .objectID ⟨16⟩), ("vendor_id", .string sampleVendor.VendorID)]⟩] ∧
      (⟨8⟩ : ObjectID) ≠ ⟨16⟩ ∧
      s₂.documents = sampleStore.documents ++ [⟨⟨8⟩, sampleVendor⟩, ⟨⟨16⟩, sampleVendor⟩] ∧
      s₂.inserts = sampleStore.inserts ++ [sampleVendor, sampleVendor] :=
  createVendor_not_idempotent upWorld sampleCollection ⟨sampleBody, []⟩ ⟨sampleBody, []⟩
    sampleStore sampleVendor ⟨8⟩ ⟨16⟩ rfl (by rfl) upWorld_freshIDs (by rfl) (by rfl)

/-! ## `godotenv.Load` and the process environment -/

/-- Removing the entries of another variable does not change a lookup. -/
theorem lookup_filter_ne (env : Environ) (k k' : String) (h : k ≠ k') :
    (env.filter (fun kv => kv.1 != k')).lookup k = env.lookup k := by
  induction env with
  | nil => rfl
  | cons x xs ih =>
    obtain ⟨a, b⟩ := x
    by_cases hak : a = k'
    · subst hak
      have : (k == a) = false := by simpa using h
      simp [List.filter_cons, List.lookup_cons, ih, this]
    · by_cases hka : k = a
      · subst hka
        simp [List.filter_cons, List.lookup_cons, hak]
      · have : (k == a) = false := by simpa using hka
        simp [List.filter_cons, List.lookup_cons, hak, ih, this]

/-- Setting one variable does not change another. -/
theorem lookup_Setenv_ne (env : Environ) (k k' v : String) (h : k ≠ k') :
    (os.Setenv env k' v).lookup k = env.lookup k := by
  have : (k == k') = false := by simpa using h
  simp [os.Setenv, List.lookup_cons, this, lookup_filter_ne env k k' h]

/-- A variable that has a value has an entry. -/
theorem any_key_of_lookup (env : Environ) (k v : String) (h : env.lookup k = some v) :
    env.any (fun cur => cur.1 == k) = true := by
  induction env with
  | nil => simp at h
  | cons x xs ih =>
    obtain ⟨a, b⟩ := x
    by_cases hka : k = a
    · subst hka
      simp
    · have hb : (k == a) = false := by simpa using hka
      simp only [List.lookup_cons, hb] at h
      simp [ih h]

/-- `godotenv.Load` does not override: a variable the process environment has,
even with the empty value, keeps its value whatever `.env` says. -/
theorem godotenv_Load_keeps (file : Except error (List (String × String))) (env : Environ)
    (k v : String) (h : env.lookup k = some v) :
    (godotenv.Load file env).1.lookup k = some v := by
  cases file with
  | error e => simpa [godotenv.Load] using h
  | ok envMap =>
    simp only [godotenv.Load]
    have hany := any_key_of_lookup env k v h
    suffices H : ∀ acc : Environ, acc.lookup k = some v →
        (envMap.foldl (fun acc kv =>
          if env.any (fun cur => cur.1 == kv.1) then acc else os.Setenv acc kv.1 kv.2) acc).lookup k
          = some v from H env h
    induction envMap with
    | nil =>
      intro acc hacc
      simpa using hacc
    | cons kv rest ih =>
      intro acc hacc
      simp only [List.foldl_cons]
      apply ih
      by_cases hk : kv.1 = k
      · rw [hk, hany]
        simpa using hacc
      · split
        · exact hacc
        · rw [lookup_Setenv_ne acc k kv.1 kv.2 (fun h => hk h.symm)]
          exact hacc

/-- A variable that neither the process environment nor `.env` has is still
absent after `godotenv.Load`; so is every absent variable when `.env` cannot be read. -/
theorem godotenv_Load_absent (file : Except error (List (String × String))) (env : Environ)
    (k : String) (h : env.lookup k = none)
    (hfile : ∀ envMap, file = .ok envMap → ∀ kv ∈ envMap, kv.1 ≠ k) :
    (godotenv.Load file env).1.lookup k = none := by
  cases file with
  | error e => simpa [godotenv.Load] using h
  | ok envMap =>
    simp only [godotenv.Load]
    have hmap := hfile envMap rfl
    clear hfile
    suffices H : ∀ acc : Environ, acc.lookup k = none →
        (envMap.foldl (fun acc kv =>
          if env.any (fun cur => cur.1 == kv.1) then acc else os.Setenv acc kv.1 kv.2) acc).lookup k
          = none from H env h
    induction envMap with
    | nil =>
      intro acc hacc
      simpa using hacc
    | cons kv rest ih =>
      intro acc hacc
      simp only [List.foldl_cons]
      apply ih (fun kv' hkv' => hmap kv' (List.mem_cons_of_mem _ hkv'))
      have hk : kv.1 ≠ k := hmap kv (List.mem_cons_self _ _)
      split
      · exact hacc
      · rw [lookup_Setenv_ne acc k kv.1 kv.2 (fun h => hk h.symm)]
        exact hacc

/-! ## Startup -/

/-- C8: when the process environment, as connectDB reads it (that is, once
godotenv.Load has run), has no MONGO_URI or has it empty, startup ends inside
connectDB with a fatal message and exit status 1: no connection attempt and no
ping has been made, the collection handle is still nil, and main has neither
registered the route nor called r.Run, so that nothing listens. -/
theorem main_fatal_without_uri (w : StartupWorld) (environ env : Environ)
    (henv : (godotenv.Load w.dotenv environ).1 = env)
    (huri : env.lookup "MONGO_URI" = none ∨ env.lookup "MONGO_URI" = some "") :
    ∃ q, connectDB w (Process.start environ) = .error q ∧
      main w (Process.start environ) = .error q ∧
      q.exitCode = some 1 ∧
      q.output.getLast? = some "You must set your 'MONGO_URI' environmental variable." ∧
      q.connects = [] ∧ q.pings = [] ∧ q.collection = none ∧ q.listens = [] ∧
      q.serving = none := by
  have hget : os.Getenv (godotenv.Load w.dotenv environ).1 "MONGO_URI" = "" := by
    rw [henv]
    rcases huri with h | h <;> simp [os.Getenv, h]
  cases hload : (godotenv.Load w.dotenv environ).2 <;>
    simp [main, connectDB, Process.start, log.Fatal, log.Println, hget, hload]

/-- No `.env` file and an empty MONGO_URI: fatal exit before any connection. -/
theorem main_fatal_without_uri_witness :
    ∃ q, connectDB bareStartup (Process.start [("PORT", "3000"), ("MONGO_URI", "")]) = .error q ∧
      main bareStartup (Process.start [("PORT", "3000"), ("MONGO_URI", "")]) = .error q ∧
      q.exitCode = some 1 ∧
      q.output.getLast? = some "You must set your 'MONGO_URI' environmental variable." ∧
      q.connects = [] ∧ q.pings = [] ∧ q.collection = none ∧ q.listens = [] ∧
      q.serving = none :=
  main_fatal_without_uri bareStartup [("PORT", "3000"), ("MONGO_URI", "")]
    [("PORT", "3000"), ("MONGO_URI", "")] rfl (Or.inr (by rfl))

/-- The path of connectDB on which it returns: the process it returns with. -/
theorem connectDB_eq_ok (w : StartupWorld) (environ : Environ)
    (hne : os.Getenv (godotenv.Load w.dotenv environ).1 "MONGO_URI" ≠ "")
    (hconnect : w.connectFails
      (options.Client.ApplyURI (os.Getenv (godotenv.Load w.dotenv environ).1 "MONGO_URI")) = none)
    (hping : w.pingFails
      ⟨options.Client.ApplyURI (os.Getenv (godotenv.Load w.dotenv environ).1 "MONGO_URI")⟩ = none) :
    connectDB w (Process.start environ) = .ok
      { environ := (godotenv.Load w.dotenv environ).1,
        collection := some
          { database :=
              { client := ⟨options.Client.ApplyURI
                  (os.Getenv (godotenv.Load w.dotenv environ).1 "MONGO_URI")⟩,
                name := os.Getenv (godotenv.Load w.dotenv environ).1 "DB_NAME" },
            name := os.Getenv (godotenv.Load w.dotenv environ).1 "COLLECTION_NAME" },
        output := (match (godotenv.Load w.dotenv environ).2 with
          | some _ => ["No .env file found"]
          | none => []) ++ ["Connected to MongoDB!"],
        connects := [options.Client.ApplyURI
          (os.Getenv (godotenv.Load w.dotenv environ).1 "MONGO_URI")],
        pings := [⟨options.Client.ApplyURI
          (os.Getenv (godotenv.Load w.dotenv environ).1 "MONGO_URI")⟩],
        listens := [], serving := none, exitCode := none } := by
  cases hload : (godotenv.Load w.dotenv environ).2 <;>
    simp [connectDB, Process.start, log.Println, fmt.Println, mongo.Connect,
      mongo.Client.Database, mongo.Database.Collection, hne, hload, hconnect, hping]

/-- C9: with a non-empty MONGO_URI `uri` in the environment connectDB reads.
If the connect step fails, or it succeeds and the ping fails, the process exits
with status 1 inside connectDB, the collection handle is still nil and main
does not call r.Run, so that nothing listens. If both succeed, connectDB returns with the handle set to the
collection named by COLLECTION_NAME in the database named by DB_NAME, on the
client made from `uri`; both names are read with os.Getenv and used as they
are, the empty string included. -/
theorem connectDB_connect_and_ping (w : StartupWorld) (environ env : Environ) (uri : String)
    (henv : (godotenv.Load w.dotenv environ).1 = env)
    (huri : os.Getenv env "MONGO_URI" = uri) (hne : uri ≠ "") :
    (∀ e, w.connectFails (options.Client.ApplyURI uri) = some e →
      ∃ q, connectDB w (Process.start environ) = .error q ∧
        main w (Process.start environ) = .error q ∧
        q.exitCode = some 1 ∧ q.output.getLast? = some e.Error ∧
        q.pings = [] ∧ q.collection = none ∧ q.listens = [] ∧ q.serving = none) ∧
    (w.connectFails (options.Client.ApplyURI uri) = none →
      ∀ e, w.pingFails ⟨options.Client.ApplyURI uri⟩ = some e →
      ∃ q, connectDB w (Process.start environ) = .error q ∧
        main w (Process.start environ) = .error q ∧
        q.exitCode = some 1 ∧
        q.output.getLast? = some ("Could not connect to MongoDB:" ++ e.Error) ∧
        q.collection = none ∧ q.listens = [] ∧ q.serving = none) ∧
    (w.connectFails (options.Client.ApplyURI uri) = none →
      w.pingFails ⟨options.Client.ApplyURI uri⟩ = none →
      ∃ q, connectDB w (Process.start environ) = .ok q ∧
        q.exitCode = none ∧
        q.connects = [options.Client.ApplyURI uri] ∧
        q.pings = [⟨options.Client.ApplyURI uri⟩] ∧
        q.collection = some
          { database := { client := ⟨options.Client.ApplyURI uri⟩,
                          name := os.Getenv env "DB_NAME" },
            name := os.Getenv env "COLLECTION_NAME" }) := by
  subst huri
  subst henv
  refine ⟨?_, ?_, ?_⟩
  · intro e hc
    cases hload : (godotenv.Load w.dotenv environ).2 <;>
      simp [main, connectDB, Process.start, log.Fatal, log.Println, mongo.Connect, hne, hload, hc]
  · intro hc e hp
    cases hload : (godotenv.Load w.dotenv environ).2 <;>
      simp [main, connectDB, Process.start, log.Fatal, log.Println, mongo.Connect, hne, hload, hc,
        hp]
  · intro hc hp
    exact ⟨_, connectDB_eq_ok w environ hne hc hp, rfl, rfl, rfl, rfl⟩

/-- With no `.env` file and only MONGO_URI set, connectDB returns with a handle
whose database and collection names are both empty. -/
theorem connectDB_connect_and_ping_witness :
    ∃ q, connectDB bareStartup (Process.start [("MONGO_URI", "mongodb://db:27017")]) = .ok q ∧
      q.exitCode = none ∧
      q.connects = [options.Client.ApplyURI "mongodb://db:27017"] ∧
      q.pings = [⟨options.Client.ApplyURI "mongodb://db:27017"⟩] ∧
      q.collection = some
        { database := { client := ⟨options.Client.ApplyURI "mongodb://db:27017"⟩, name := "" },
          name := "" } :=
  (connectDB_connect_and_ping bareStartup [("MONGO_URI", "mongodb://db:27017")]
    [("MONGO_URI", "mongodb://db:27017")] "mongodb://db:27017" rfl (by rfl)
    (by decide)).2.2 rfl rfl

/-- After connectDB has returned with `p`, main when the listen succeeds: the
process serves. -/
theorem main_eq_of_listen_ok (w : StartupWorld) (p₀ p : Process)
    (hdb : connectDB w p₀ = .ok p)
    (hlisten : w.listenFails
      (":" ++ if os.Getenv p.environ "PORT" = "" then "8080" else os.Getenv p.environ "PORT")
        = none) :
    main w p₀ = .ok
      { p with
        listens := p.listens ++ [⟨gin.Default.POST "/api/vendor" createVendor,
          ":" ++ if os.Getenv p.environ "PORT" = "" then "8080"
            else os.Getenv p.environ "PORT"⟩],
        serving := some ⟨gin.Default.POST "/api/vendor" createVendor,
          ":" ++ if os.Getenv p.environ "PORT" = "" then "8080"
            else os.Getenv p.environ "PORT"⟩ } := by
  simp only [main, hdb]
  simp [gin.Engine.Run, hlisten]

/-- After connectDB has returned with `p`, main when the listen fails: `r.Run`
returns, main returns, exit status 0. -/
theorem main_eq_of_listen_error (w : StartupWorld) (p₀ p : Process) (err : error)
    (hdb : connectDB w p₀ = .ok p)
    (hlisten : w.listenFails
      (":" ++ if os.Getenv p.environ "PORT" = "" then "8080" else os.Getenv p.environ "PORT")
        = some err) :
    main w p₀ = .ok
      { p with
        listens := p.listens ++ [⟨gin.Default.POST "/api/vendor" createVendor,
          ":" ++ if os.Getenv p.environ "PORT" = "" then "8080"
            else os.Getenv p.environ "PORT"⟩],
        exitCode := some 0 } := by
  simp only [main, hdb]
  simp [gin.Engine.Run, hlisten]

/-- C10, as amended: once startup has succeeded (non-empty MONGO_URI, connect
and ping succeed), main calls r.Run exactly once, and the address is ":"
followed by the value of PORT when PORT is non-empty and ":8080" when PORT is
unset or empty, PORT being read from the environment as it is after
godotenv.Load. The collection handle is set by then. The router has the Logger
and Recovery middleware and exactly one route, POST /api/vendor, handled by
createVendor. When listening on that address succeeds, the process listens
there with that router and does not exit. -/
theorem main_listens (w : StartupWorld) (environ env : Environ) (uri : String)
    (henv : (godotenv.Load w.dotenv environ).1 = env)
    (huri : os.Getenv env "MONGO_URI" = uri) (hne : uri ≠ "")
    (hconnect : w.connectFails (options.Client.ApplyURI uri) = none)
    (hping : w.pingFails ⟨options.Client.ApplyURI uri⟩ = none) :
    ∃ q srv, main w (Process.start environ) = .ok q ∧
      q.collection ≠ none ∧ q.listens = [srv] ∧
      srv.engine.routes = [⟨"POST", "/api/vendor", createVendor⟩] ∧
      srv.engine.middleware = ["Logger", "Recovery"] ∧
      (∀ port, env.lookup "PORT" = some port → port ≠ "" → srv.addr = ":" ++ port) ∧
      (env.lookup "PORT" = none ∨ env.lookup "PORT" = some "" → srv.addr = ":8080") ∧
      (w.listenFails srv.addr = none → q.serving = some srv ∧ q.exitCode = none) := by
  subst huri
  subst henv
  have hdb := connectDB_eq_ok w environ hne hconnect hping
  have hport₁ : ∀ port, (godotenv.Load w.dotenv environ).1.lookup "PORT" = some port →
      port ≠ "" →
      (":" ++ if os.Getenv (godotenv.Load w.dotenv environ).1 "PORT" = "" then "8080"
        else os.Getenv (godotenv.Load w.dotenv environ).1 "PORT") = ":" ++ port := by
    intro port h hp
    simp [os.Getenv, h, hp]
  have hport₂ : (godotenv.Load w.dotenv environ).1.lookup "PORT" = none ∨
      (godotenv.Load w.dotenv environ).1.lookup "PORT" = some "" →
      (":" ++ if os.Getenv (godotenv.Load w.dotenv environ).1 "PORT" = "" then "8080"
        else os.Getenv (godotenv.Load w.dotenv environ).1 "PORT") = ":8080" := by
    intro h
    rcases h with h | h <;> simp [os.Getenv, h]
  cases hlisten : w.listenFails
      (":" ++ if os.Getenv (godotenv.Load w.dotenv environ).1 "PORT" = "" then "8080"
        else os.Getenv (godotenv.Load w.dotenv environ).1 "PORT") with
  | none =>
    refine ⟨_, _, main_eq_of_listen_ok w _ _ hdb hlisten, ?_, rfl, rfl, rfl, hport₁, hport₂, ?_⟩
    · simp
    · intro _
      exact ⟨rfl, rfl⟩
  | some err =>
    refine ⟨_, _, main_eq_of_listen_error w _ _ err hdb hlisten, ?_, rfl, rfl, rfl, hport₁,
      hport₂, ?_⟩
    · simp
    · intro h
      rw [hlisten] at h
      cases h

/-- With PORT=3000 in the process environment (the `.env` file, which says
9999, does not override it) and a free port, main listens on ":3000". -/
theorem main_listens_witness :
    ∃ q srv, main goodStartup (Process.start [("PORT", "3000")]) = .ok q ∧
      q.listens = [srv] ∧ q.serving = some srv ∧ q.exitCode = none ∧ srv.addr = ":3000" ∧
      srv.engine.routes = [⟨"POST", "/api/vendor", createVendor⟩] := by
  obtain ⟨q, srv, hmain, _, hlistens, hroutes, _, hport, _, hserving⟩ :=
    main_listens goodStartup [("PORT", "3000")] _ "mongodb://localhost:27017" rfl (by rfl)
      (by decide) rfl rfl
  exact ⟨q, srv, hmain, hlistens, (hserving rfl).1, (hserving rfl).2,
    hport "3000" (by rfl) (by decide), hroutes⟩

/-- C10 as stated fails: startup succeeds and PORT is the non-empty "abc", yet
main does not listen on ":abc" or anywhere else; r.Run returns an error, main
returns and the process exits with status 0. -/
theorem main_does_not_listen_on_unknown_port :
    ∃ q, main busyStartup (Process.start [("PORT", "abc")]) = .ok q ∧
      (godotenv.Load busyStartup.dotenv [("PORT", "abc")]).1.lookup "PORT" = some "abc" ∧
      q.collection = some sampleCollection ∧ q.listens.map (fun srv => srv.addr) = [":abc"] ∧
      q.serving = none ∧ q.exitCode = some 0 :=
  ⟨_, rfl, rfl, rfl, rfl, rfl, rfl⟩

end EyVendor
